import Mathlib

set_option maxRecDepth 40000

/-!
Verification of the FundPanel LP Portal static data service and filter bar.

The JavaScript sources `lpStaticDataService.js` and `lpFilterBar.js` are
shallowly embedded below.  JavaScript numbers never overflow on the fixture
data involved, and all fixture values are exact two-decimal decimals, so
numbers are modelled as exact rationals; `Math.round` is modelled as
round-half-up (toward positive infinity), which is its behaviour on the
reals.  `new Date()` is modelled by an explicit current-month parameter
`t : Int` counting absolute months (`t = 12 * year + monthIndex`, month
index zero-based), with the clock assumed to be in UTC.
-/

namespace PortalDev

/-- JavaScript `Math.round`: round half toward positive infinity. -/
def jsRound (x : ℚ) : ℤ := ⌊x + 1/2⌋

/-- Models `Math.round(x * 100) / 100`: round to two decimal places, half-up. -/
def round2 (x : ℚ) : ℚ := (jsRound (x * 100) : ℚ) / 100

/-- The five portfolio metrics, from `lpStaticDataService.js`. -/
structure InvestmentMetrics where
  totalCommitments : ℚ
  totalCalled : ℚ
  totalDistributions : ℚ
  estimatedValue : ℚ
  estimatedTVPI : ℚ
deriving DecidableEq, Repr

/-- Full portfolio metrics (unfiltered), `getPortfolioMetrics` lines 66-72. -/
def fullMetrics : InvestmentMetrics :=
  ⟨61888645023/100, 13057558529/100, 1275690014/100, 16033594214/100, 133/100⟩

/-- Fund fixture `pbventures`. -/
def pbventuresMetrics : InvestmentMetrics :=
  ⟨19462845810/100, 4106594108/100, 401269504/100, 5042562479/100, 145/100⟩

/-- Fund fixture `norton`. -/
def nortonMetrics : InvestmentMetrics :=
  ⟨13799771840/100, 2911839652/100, 284478843/100, 3575489527/100, 138/100⟩

/-- Fund fixture `wanye`. -/
def wanyeMetrics : InvestmentMetrics :=
  ⟨11603820942/100, 2448292224/100, 239191878/100, 3006298928/100, 128/100⟩

/-- Fund fixture `violet`. -/
def violetMetrics : InvestmentMetrics :=
  ⟨8787887583/100, 1854173312/100, 181147982/100, 2276770384/100, 125/100⟩

/-- Fund fixture `123`. -/
def fund123Metrics : InvestmentMetrics :=
  ⟨5012980247/100, 1057662239/100, 103330911/100, 1298722532/100, 118/100⟩

/-- Fund fixture `mjk`. -/
def mjkMetrics : InvestmentMetrics :=
  ⟨3221338501/100, 678997094/100, 66270996/100, 833750364/100, 142/100⟩

/-- The `fundMetrics` lookup object of `getPortfolioMetrics` (lines 75-118). -/
def fundMetricsTable : List (String × InvestmentMetrics) :=
  [("pbventures", pbventuresMetrics),
   ("norton", nortonMetrics),
   ("wanye", wanyeMetrics),
   ("violet", violetMetrics),
   ("123", fund123Metrics),
   ("mjk", mjkMetrics)]

/-- Vehicle fixture `iv1`. -/
def iv1Metrics : InvestmentMetrics :=
  ⟨36483956151/100, 7702230854/100, 752019343/100, 9451802370/100, 141/100⟩

/-- Vehicle fixture `iv2`. -/
def iv2Metrics : InvestmentMetrics :=
  ⟨25404688772/100, 5355327775/100, 523670771/100, 6581791844/100, 126/100⟩

/-- The `vehicleMetrics` lookup object of `getPortfolioMetrics` (lines 121-136). -/
def vehicleMetricsTable : List (String × InvestmentMetrics) :=
  [("iv1", iv1Metrics), ("iv2", iv2Metrics)]

/-- Embeds `getPortfolioMetrics(vehicleId, fundId)` (lines 64-148): fund filter
dominates vehicle filter; an unknown id falls back to the full portfolio
fixture, mirroring the JavaScript `table[id] || fullMetrics`. -/
def getPortfolioMetrics (vehicleId fundId : String) : InvestmentMetrics :=
  if fundId ≠ "all" then
    (fundMetricsTable.lookup fundId).getD fullMetrics
  else if vehicleId ≠ "all" then
    (vehicleMetricsTable.lookup vehicleId).getD fullMetrics
  else
    fullMetrics

/-- Investment vehicle record, `getInvestmentVehicles` (lines 21-27). -/
structure InvestmentVehicle where
  id : String
  name : String
deriving DecidableEq, Repr

/-- Embeds `getInvestmentVehicles()` (lines 21-27). -/
def getInvestmentVehicles : List InvestmentVehicle :=
  [⟨"all", "All Investment Vehicles"⟩,
   ⟨"iv1", "Investment Vehicle 1"⟩,
   ⟨"iv2", "Investment Vehicle 2"⟩]

/-- An entry of the `fundBaseData` array inside `getFunds` (lines 38-45). -/
structure FundBase where
  id : String
  name : String
  vehicleId : String
  color : String
deriving DecidableEq, Repr

/-- The `fundBaseData` array of `getFunds` (lines 38-45). -/
def fundBaseData : List FundBase :=
  [⟨"pbventures", "PB Ventures Fund", "iv1", "#1976D2"⟩,
   ⟨"norton", "Norton Ventures", "iv1", "#388E3C"⟩,
   ⟨"wanye", "Wanye", "iv2", "#F57C00"⟩,
   ⟨"violet", "Violet", "iv2", "#7B1FA2"⟩,
   ⟨"123", "123", "iv2", "#C2185B"⟩,
   ⟨"mjk", "MJK", "iv1", "#0097A7"⟩]

/-- A fund as returned by `getFunds` (base data plus derived allocation). -/
structure Fund where
  id : String
  name : String
  vehicleId : String
  allocation : ℚ
  color : String
deriving DecidableEq, Repr

/-- Embeds `getFunds()` (lines 33-56): allocation percentage of each fund is its
fund-fixture total commitments over the full-portfolio total commitments,
scaled to 100 and rounded to two decimals. -/
def getFunds : List Fund :=
  let totalPortfolioCommitments := (getPortfolioMetrics "all" "all").totalCommitments
  fundBaseData.map (fun fund =>
    let fundMetrics := getPortfolioMetrics "all" fund.id
    let allocation := fundMetrics.totalCommitments / totalPortfolioCommitments * 100
    ⟨fund.id, fund.name, fund.vehicleId, round2 allocation, fund.color⟩)

/-- An entry of the sequence returned by `getFundAllocation` (line 154). -/
structure AllocationEntry where
  fundId : String
  fundName : String
  allocation : ℚ
  value : ℚ
  color : String
deriving DecidableEq, Repr

/-- Embeds `getFundAllocation(vehicleId, fundId)` (lines 156-194).  When a known
fund is selected it is returned alone at allocation 100 (the fund is looked
up in the full fund list, not the vehicle-filtered one); otherwise the
vehicle-filtered funds are returned, renormalized when a concrete vehicle
is selected. -/
def getFundAllocation (vehicleId fundId : String) : List AllocationEntry :=
  let funds := getFunds
  let filteredFunds := if vehicleId ≠ "all"
    then funds.filter (fun f => f.vehicleId == vehicleId)
    else funds
  match (if fundId ≠ "all" then funds.find? (fun f => f.id == fundId) else none) with
  | some selectedFund =>
      let metrics := getPortfolioMetrics vehicleId fundId
      [⟨selectedFund.id, selectedFund.name, 100, metrics.totalCommitments,
        selectedFund.color⟩]
  | none =>
      let total := (filteredFunds.map (fun f => f.allocation)).sum
      filteredFunds.map (fun fund =>
        ⟨fund.id, fund.name,
         if vehicleId == "all" then fund.allocation else fund.allocation / total * 100,
         (getPortfolioMetrics "all" fund.id).totalCommitments,
         fund.color⟩)

/-- Zero-pad a month number to two digits. -/
def pad2 (n : ℕ) : String :=
  if n < 10 then "0" ++ toString n else toString n

/-- Zero-pad a year number to four digits. -/
def pad4 (n : ℕ) : String :=
  if n < 10 then "000" ++ toString n
  else if n < 100 then "00" ++ toString n
  else if n < 1000 then "0" ++ toString n
  else toString n

/-- The `YYYY-MM` string of the calendar month with absolute index `t`
(`t = 12 * year + monthIndex`, month index zero-based).  Models
`new Date(year, monthIndex, 1).toISOString().slice(0, 7)` of
`getPerformanceData` (lines 207-210) under a UTC clock; the JavaScript
`Date` constructor normalizes out-of-range month indices exactly as the
floor division and nonnegative remainder by 12 do. -/
def fmtMonth (t : ℤ) : String :=
  pad4 (t / 12).toNat ++ "-" ++ pad2 ((t % 12).toNat + 1)

/-- One point of the performance time series (line 200). -/
structure PerformancePoint where
  date : String
  totalValue : ℚ
  capitalCalled : ℚ
  tvpi : ℚ
deriving DecidableEq, Repr

/-- A multiplier triple of `getPerformanceData` (lines 229-242). -/
structure Multipliers where
  valueMultiplier : ℚ
  calledMultiplier : ℚ
  tvpiOffset : ℚ
deriving DecidableEq, Repr

/-- The identity multiplier triple (line 245). -/
def identityMultipliers : Multipliers := ⟨1, 1, 0⟩

/-- The `fundMultipliers` object (lines 229-236). -/
def fundMultipliers : List (String × Multipliers) :=
  [("pbventures", ⟨109/100, 95/100, 12/100⟩),
   ("norton", ⟨104/100, 92/100, 5/100⟩),
   ("wanye", ⟨96/100, 102/100, -5/100⟩),
   ("violet", ⟨94/100, 105/100, -8/100⟩),
   ("123", ⟨89/100, 108/100, -15/100⟩),
   ("mjk", ⟨107/100, 98/100, 9/100⟩)]

/-- The `vehicleMultipliers` object (lines 239-242). -/
def vehicleMultipliers : List (String × Multipliers) :=
  [("iv1", ⟨106/100, 96/100, 8/100⟩),
   ("iv2", ⟨95/100, 104/100, -7/100⟩)]

/-- The `fullPerformance` array (lines 213-226), with `months[j]` unrolled to
`fmtMonth (t - 11 + j)` where `t` is the current absolute month: the loop on
lines 207-210 pushes the months for `i = 11` down to `i = 0`. -/
def fullPerformance (t : ℤ) : List PerformancePoint :=
  [⟨fmtMonth (t - 11), 145000000, 118000000, 123/100⟩,
   ⟨fmtMonth (t - 10), 147500000, 120000000, 124/100⟩,
   ⟨fmtMonth (t - 9), 150200000, 122500000, 126/100⟩,
   ⟨fmtMonth (t - 8), 152800000, 124000000, 127/100⟩,
   ⟨fmtMonth (t - 7), 154500000, 125800000, 128/100⟩,
   ⟨fmtMonth (t - 6), 156200000, 127200000, 129/100⟩,
   ⟨fmtMonth (t - 5), 157800000, 128500000, 130/100⟩,
   ⟨fmtMonth (t - 4), 158900000, 129400000, 131/100⟩,
   ⟨fmtMonth (t - 3), 159800000, 130100000, 132/100⟩,
   ⟨fmtMonth (t - 2), 160100000, 130400000, 132/100⟩,
   ⟨fmtMonth (t - 1), 160200000, 130500000, 133/100⟩,
   ⟨fmtMonth t, 16033594214/100, 13057558529/100, 133/100⟩]

/-- Embeds `getPerformanceData(vehicleId, fundId)` (lines 202-259), with the wall
clock passed explicitly as the current absolute month `t`.  The multiplier
triple is chosen with the same fund-dominates-vehicle precedence and
unknown-id identity fallback as `getPortfolioMetrics`, and each canonical
point is scaled and rounded to two decimals. -/
def getPerformanceData (t : ℤ) (vehicleId fundId : String) : List PerformancePoint :=
  let multipliers :=
    if fundId ≠ "all" then
      (fundMultipliers.lookup fundId).getD identityMultipliers
    else if vehicleId ≠ "all" then
      (vehicleMultipliers.lookup vehicleId).getD identityMultipliers
    else
      identityMultipliers
  (fullPerformance t).map (fun dataPoint =>
    ⟨dataPoint.date,
     round2 (dataPoint.totalValue * multipliers.valueMultiplier),
     round2 (dataPoint.capitalCalled * multipliers.calledMultiplier),
     round2 (dataPoint.tvpi + multipliers.tvpiOffset)⟩)

/-- The filter state of `lpFilterBar` (`selectedVehicleId`, `selectedFundId`,
lines 23-24). -/
structure FilterState where
  vehicleId : String
  fundId : String
deriving DecidableEq, Repr

/-- The default filter state: both filters at `"all"` (lines 23-24). -/
def initialFilterState : FilterState := ⟨"all", "all"⟩

/-- Embeds `handleVehicleChange` of `lpFilterBar.js` (lines 94-113): adopt the new
vehicle; if a concrete fund is selected that belongs to a different vehicle
and the new vehicle is concrete, reset the fund filter to `"all"`. -/
def handleVehicleChange (s : FilterState) (newVehicleId : String) : FilterState :=
  if newVehicleId = s.vehicleId then s
  else if s.fundId ≠ "all" then
    match getFunds.find? (fun f => f.id == s.fundId) with
    | some currentFund =>
        if currentFund.vehicleId ≠ newVehicleId ∧ newVehicleId ≠ "all" then
          ⟨newVehicleId, "all"⟩
        else
          ⟨newVehicleId, s.fundId⟩
    | none => ⟨newVehicleId, s.fundId⟩
  else ⟨newVehicleId, s.fundId⟩

/-- Embeds `handleFundChange` of `lpFilterBar.js` (lines 118-136): adopt the new
fund; if it is concrete while the vehicle filter is `"all"`, auto-adopt the
owning vehicle of the fund. -/
def handleFundChange (s : FilterState) (newFundId : String) : FilterState :=
  if newFundId = s.fundId then s
  else if newFundId ≠ "all" ∧ s.vehicleId = "all" then
    match getFunds.find? (fun f => f.id == newFundId) with
    | some selectedFund => ⟨selectedFund.vehicleId, newFundId⟩
    | none => ⟨s.vehicleId, newFundId⟩
  else ⟨s.vehicleId, newFundId⟩

/-- Embeds `handleClearFilters` of `lpFilterBar.js` (lines 141-145). -/
def handleClearFilters (_s : FilterState) : FilterState := ⟨"all", "all"⟩

/-- A user-visible filter-bar operation. -/
inductive FilterOp where
  | vehicleChange (newVehicleId : String)
  | fundChange (newFundId : String)
  | clear
deriving DecidableEq, Repr

/-- Apply one filter-bar operation to the state. -/
def applyFilterOp (s : FilterState) : FilterOp → FilterState
  | .vehicleChange v => handleVehicleChange s v
  | .fundChange f => handleFundChange s f
  | .clear => handleClearFilters s

/-- The vehicle ids offered by the vehicle dropdown (`vehicleOptions` getter,
lines 29-35). -/
def vehicleOptionIds : List String :=
  getInvestmentVehicles.map (fun v => v.id)

/-- The fund ids offered by the fund dropdown in a given state
(`fundOptions` getter, lines 41-65): `"all"` plus the funds of the selected
vehicle (all funds when the vehicle filter is `"all"`). -/
def fundOptionIds (selectedVehicleId : String) : List String :=
  "all" ::
    ((if selectedVehicleId ≠ "all"
      then getFunds.filter (fun f => f.vehicleId == selectedVehicleId)
      else getFunds).map (fun f => f.id))

/-- Whether an operation is one the dropdown UI can emit in state `s`. -/
def validFilterOp (s : FilterState) : FilterOp → Prop
  | .vehicleChange v => v ∈ vehicleOptionIds
  | .fundChange f => f ∈ fundOptionIds s.vehicleId
  | .clear => True

instance decValidFilterOp (s : FilterState) : (op : FilterOp) → Decidable (validFilterOp s op)
  | .vehicleChange v => inferInstanceAs (Decidable (v ∈ vehicleOptionIds))
  | .fundChange f => inferInstanceAs (Decidable (f ∈ fundOptionIds s.vehicleId))
  | .clear => inferInstanceAs (Decidable True)

/-- Run a sequence of filter-bar operations. -/
def runFilterOps (s : FilterState) : List FilterOp → FilterState
  | [] => s
  | op :: rest => runFilterOps (applyFilterOp s op) rest

/-- Every operation of the sequence is UI-valid in the state it is applied
to. -/
def validFilterOps : FilterState → List FilterOp → Prop
  | _, [] => True
  | s, op :: rest => validFilterOp s op ∧ validFilterOps (applyFilterOp s op) rest

instance decValidFilterOps : (s : FilterState) → (ops : List FilterOp) → Decidable (validFilterOps s ops)
  | _, [] => inferInstanceAs (Decidable True)
  | s, op :: rest =>
      haveI := decValidFilterOps (applyFilterOp s op) rest
      inferInstanceAs (Decidable (validFilterOp s op ∧ validFilterOps (applyFilterOp s op) rest))

/-- The filter-state invariant: if the fund filter is concrete, the selected
fund exists and its owning vehicle is the vehicle filter, unless the vehicle
filter is `"all"`. -/
def filterInvariant (s : FilterState) : Prop :=
  s.fundId = "all" ∨
    ∃ f ∈ getFunds, s.fundId = f.id ∧ (s.vehicleId = "all" ∨ s.vehicleId = f.vehicleId)

instance decFilterInvariant (s : FilterState) : Decidable (filterInvariant s) :=
  inferInstanceAs (Decidable (s.fundId = "all" ∨
    ∃ f ∈ getFunds, s.fundId = f.id ∧ (s.vehicleId = "all" ∨ s.vehicleId = f.vehicleId)))

/-- The six fund ids present in every fixture table of the service. -/
def knownFundIds : List String :=
  ["pbventures", "norton", "wanye", "violet", "123", "mjk"]

/-- The display name of a fund id according to `getFunds`. -/
def fundNameOf (fundId : String) : String :=
  ((getFunds.find? (fun f => f.id == fundId)).map (fun f => f.name)).getD ""

/-- The color of a fund id according to `getFunds`. -/
def fundColorOf (fundId : String) : String :=
  ((getFunds.find? (fun f => f.id == fundId)).map (fun f => f.color)).getD ""

/-! ## Helper lemmas -/

/-- Evaluation of `getFunds`: the six funds with their derived allocation
percentages 31.45, 22.30, 18.75, 14.20, 8.10 and 5.21. -/
theorem getFunds_eq :
    getFunds =
      [⟨"pbventures", "PB Ventures Fund", "iv1", 629/20, "#1976D2"⟩,
       ⟨"norton", "Norton Ventures", "iv1", 223/10, "#388E3C"⟩,
       ⟨"wanye", "Wanye", "iv2", 75/4, "#F57C00"⟩,
       ⟨"violet", "Violet", "iv2", 71/5, "#7B1FA2"⟩,
       ⟨"123", "123", "iv2", 81/10, "#C2185B"⟩,
       ⟨"mjk", "MJK", "iv1", 521/100, "#0097A7"⟩] := by
  with_unfolding_all rfl

/-! ## Theorems for the claims -/

/-- C7: the allocation percentages returned by `getFunds` (one per fund,
derived from total commitments at data-access time) sum to 100 within
plus or minus 0.02; the exact sum is 100.01. -/
theorem getFunds_allocation_sum_near_100 :
    getFunds.length = 6 ∧
    (getFunds.map (fun f => f.allocation)).sum = 10001/100 ∧
    |(getFunds.map (fun f => f.allocation)).sum - 100| ≤ 2/100 := by
  have h : (getFunds.map (fun f => f.allocation)).sum = 10001/100 := by
    with_unfolding_all rfl
  refine ⟨by with_unfolding_all rfl, h, ?_⟩
  rw [h, abs_le]
  constructor <;> norm_num

/-- C8: `getPortfolioMetrics` with both filters at `"all"` returns exactly
the full-portfolio fixture record (618886450.23, 130575585.29, 12756900.14,
160335942.14, 1.33). -/
theorem getPortfolioMetrics_all_all_exact :
    getPortfolioMetrics "all" "all" =
      ⟨61888645023/100, 13057558529/100, 1275690014/100, 16033594214/100, 133/100⟩ := by
  with_unfolding_all rfl

/-- C9: the vehicle-level and fund-level fixtures do not sum consistently:
the stored `totalCalled` of vehicle `iv1` (77022308.54) differs from the sum
of `totalCalled` over its constituent funds `pbventures`, `norton` and `mjk`
(76974308.54). -/
theorem iv1_fixture_inconsistent_with_fund_sum :
    (getPortfolioMetrics "iv1" "all").totalCalled ≠
      (getPortfolioMetrics "all" "pbventures").totalCalled +
      (getPortfolioMetrics "all" "norton").totalCalled +
      (getPortfolioMetrics "all" "mjk").totalCalled := by
  have h1 : (getPortfolioMetrics "iv1" "all").totalCalled = 7702230854/100 := by
    with_unfolding_all rfl
  have h2 : (getPortfolioMetrics "all" "pbventures").totalCalled +
      (getPortfolioMetrics "all" "norton").totalCalled +
      (getPortfolioMetrics "all" "mjk").totalCalled = 7697430854/100 := by
    with_unfolding_all rfl
  rw [h1, h2]
  norm_num

/-- C2, counterexample: for the unknown vehicle id `"v999"`,
`getFundAllocation "v999" "all"` returns the empty sequence, not the
full-portfolio allocation, contradicting the claim that an unrecognized
vehicle id degrades the allocation view to the full-portfolio fixture. -/
theorem getFundAllocation_unknown_vehicle_empty :
    getFundAllocation "v999" "all" = [] ∧
    getFundAllocation "all" "all" ≠ [] := by
  constructor
  · with_unfolding_all rfl
  · intro h
    have h6 : (getFundAllocation "all" "all").length = 6 := by
      with_unfolding_all rfl
    rw [h] at h6
    exact absurd h6 (by decide)

/-- C3: for a known concrete vehicle, `getFundAllocation v "all"` returns
exactly the funds whose `vehicleId` is `v`, each with allocation equal to
its global allocation divided by the sum of the global allocations of the
subset and scaled to 100; the returned percentages sum to exactly 100, in
particular to 100 within plus or minus 0.02, regardless of the share of
the vehicle in total portfolio commitments. -/
theorem getFundAllocation_vehicle_renormalized (v : String)
    (h : v = "iv1" ∨ v = "iv2") :
    getFundAllocation v "all" =
      (getFunds.filter (fun fu => fu.vehicleId == v)).map (fun fu =>
        ⟨fu.id, fu.name,
         fu.allocation /
           ((getFunds.filter (fun x => x.vehicleId == v)).map
             (fun x => x.allocation)).sum * 100,
         (getPortfolioMetrics "all" fu.id).totalCommitments,
         fu.color⟩) ∧
    ((getFundAllocation v "all").map (fun e => e.allocation)).sum = 100 ∧
    |((getFundAllocation v "all").map (fun e => e.allocation)).sum - 100| ≤ 2/100 := by
  have habs : |(100 : ℚ) - 100| ≤ 2/100 := by norm_num
  rcases h with rfl | rfl
  · have hsum : ((getFundAllocation "iv1" "all").map (fun e => e.allocation)).sum = 100 := by
      with_unfolding_all rfl
    exact ⟨by with_unfolding_all rfl, hsum, by rw [hsum]; exact habs⟩
  · have hsum : ((getFundAllocation "iv2" "all").map (fun e => e.allocation)).sum = 100 := by
      with_unfolding_all rfl
    exact ⟨by with_unfolding_all rfl, hsum, by rw [hsum]; exact habs⟩

/-- C3, witness at `v = "iv1"`: the renormalized percentages of the funds of
vehicle `iv1` sum to exactly 100. -/
theorem getFundAllocation_vehicle_renormalized_witness :
    ((getFundAllocation "iv1" "all").map (fun e => e.allocation)).sum = 100 :=
  (getFundAllocation_vehicle_renormalized "iv1" (Or.inl rfl)).2.1

/-- C10: for every known fund id and every vehicle id whatsoever (matching,
mismatching or unknown), `getFundAllocation` returns the single-element
sequence for that fund at allocation 100, with `value` the fund-level total
commitments of the fund itself: the single-fund branch searches the full
fund list and the fund filter dominates the vehicle argument. -/
theorem getFundAllocation_single_fund (v f : String) (h : f ∈ knownFundIds) :
    getFundAllocation v f =
      [⟨f, fundNameOf f, 100,
        (getPortfolioMetrics "all" f).totalCommitments, fundColorOf f⟩] := by
  fin_cases h <;> with_unfolding_all rfl

/-- C10, witness: even for the unknown vehicle id `"zzz"`, selecting the
fund `pbventures` returns it alone at allocation 100. -/
theorem getFundAllocation_single_fund_witness :
    getFundAllocation "zzz" "pbventures" =
      [⟨"pbventures", fundNameOf "pbventures", 100,
        (getPortfolioMetrics "all" "pbventures").totalCommitments,
        fundColorOf "pbventures"⟩] :=
  getFundAllocation_single_fund "zzz" "pbventures" (by decide)

/-- C1: `getPortfolioMetrics` obeys the precedence rule with silent
fallback, for every pair of ids: a concrete fund filter returns the fund
fixture when the id is known and the full-portfolio fixture otherwise,
regardless of the vehicle filter; else a concrete vehicle filter returns
the vehicle fixture when known and the full-portfolio fixture otherwise;
else the full-portfolio fixture.  The function is total, so no input can
fail. -/
theorem getPortfolioMetrics_precedence (v f : String) :
    (f ≠ "all" → ∀ m, fundMetricsTable.lookup f = some m →
      getPortfolioMetrics v f = m) ∧
    (f ≠ "all" → fundMetricsTable.lookup f = none →
      getPortfolioMetrics v f = fullMetrics) ∧
    (f = "all" → v ≠ "all" → ∀ m, vehicleMetricsTable.lookup v = some m →
      getPortfolioMetrics v f = m) ∧
    (f = "all" → v ≠ "all" → vehicleMetricsTable.lookup v = none →
      getPortfolioMetrics v f = fullMetrics) ∧
    (f = "all" → v = "all" → getPortfolioMetrics v f = fullMetrics) := by
  refine ⟨?_, ?_, ?_, ?_, ?_⟩
  · intro hf m hm; simp [getPortfolioMetrics, hf, hm]
  · intro hf hm; simp [getPortfolioMetrics, hf, hm]
  · intro hf hv m hm; simp [getPortfolioMetrics, hf, hv, hm]
  · intro hf hv hm; simp [getPortfolioMetrics, hf, hv, hm]
  · intro hf hv; simp [getPortfolioMetrics, hf, hv]

/-- C1, witness: the fund filter `pbventures` dominates the unknown vehicle
id `"veh-x"`; the unknown vehicle id alone falls back to the full-portfolio
fixture; the unknown fund id `"fund-x"` falls back to the full-portfolio
fixture. -/
theorem getPortfolioMetrics_precedence_witness :
    getPortfolioMetrics "veh-x" "pbventures" = pbventuresMetrics ∧
    getPortfolioMetrics "veh-x" "all" = fullMetrics ∧
    getPortfolioMetrics "all" "fund-x" = fullMetrics :=
  ⟨(getPortfolioMetrics_precedence "veh-x" "pbventures").1 (by decide)
      pbventuresMetrics rfl,
   (getPortfolioMetrics_precedence "veh-x" "all").2.2.2.1 rfl (by decide) rfl,
   (getPortfolioMetrics_precedence "all" "fund-x").2.1 (by decide) rfl⟩

/-- C2, amended: `getPortfolioMetrics` and `getPerformanceData` degrade to
the full-portfolio view on every unrecognized vehicle or fund id, and
`getFundAllocation` degrades to the full-portfolio allocation for an
unrecognized fund id when the vehicle filter is `"all"`; but for a
vehicle id that is neither `"all"` nor a known vehicle,
`getFundAllocation v "all"` returns the empty sequence.  All operations
are total, so none can throw. -/
theorem lookups_degrade_gracefully (t : ℤ) (v f : String)
    (hv : v ≠ "all") (hf : f ≠ "all")
    (hvm : vehicleMetricsTable.lookup v = none)
    (hfm : fundMetricsTable.lookup f = none)
    (hvmu : vehicleMultipliers.lookup v = none)
    (hfmu : fundMultipliers.lookup f = none)
    (hff : getFunds.find? (fun x => x.id == f) = none)
    (hvfil : getFunds.filter (fun x => x.vehicleId == v) = []) :
    getPortfolioMetrics v f = fullMetrics ∧
    getPortfolioMetrics v "all" = fullMetrics ∧
    getPortfolioMetrics "all" f = fullMetrics ∧
    getPerformanceData t v f = getPerformanceData t "all" "all" ∧
    getPerformanceData t v "all" = getPerformanceData t "all" "all" ∧
    getPerformanceData t "all" f = getPerformanceData t "all" "all" ∧
    getFundAllocation "all" f = getFundAllocation "all" "all" ∧
    getFundAllocation v "all" = [] := by
  refine ⟨?_, ?_, ?_, ?_, ?_, ?_, ?_, ?_⟩
  · simp [getPortfolioMetrics, hf, hfm]
  · simp [getPortfolioMetrics, hv, hvm]
  · simp [getPortfolioMetrics, hf, hfm]
  · simp [getPerformanceData, hf, hv, hfmu]
  · simp [getPerformanceData, hv, hvmu]
  · simp [getPerformanceData, hf, hfmu]
  · simp [getFundAllocation, hf, hff]
  · simp [getFundAllocation, hv, hvfil]

/-- C2, witness: at the unknown ids `"v999"` and `"f999"`, the metrics
lookups degrade to the full-portfolio fixture and the allocation lookup for
the unknown vehicle returns the empty sequence. -/
theorem lookups_degrade_gracefully_witness :
    getPortfolioMetrics "v999" "f999" = fullMetrics ∧
    getFundAllocation "v999" "all" = [] :=
  ⟨(lookups_degrade_gracefully 0 "v999" "f999" (by decide) (by decide) rfl rfl
      rfl rfl (by decide) (by decide)).1,
   (lookups_degrade_gracefully 0 "v999" "f999" (by decide) (by decide) rfl rfl
      rfl rfl (by decide) (by decide)).2.2.2.2.2.2.2⟩

/-- Every month string produced by `fmtMonth` has the `YYYY-MM` shape: a
four-digit year, a dash, and a two-digit month between 01 and 12. -/
theorem fmtMonth_shape (n : ℤ) :
    ∃ y m, fmtMonth n = pad4 y ++ "-" ++ pad2 m ∧ 1 ≤ m ∧ m ≤ 12 := by
  refine ⟨(n / 12).toNat, (n % 12).toNat + 1, rfl, ?_, ?_⟩
  · omega
  · have h1 : 0 ≤ n % 12 := Int.emod_nonneg n (by norm_num)
    have h2 : n % 12 < 12 := Int.emod_lt_of_pos n (by norm_num)
    omega

/-- C4: for every filter pair and every current month `t`,
`getPerformanceData` returns exactly 12 points whose dates are, in
chronological order, the `YYYY-MM` strings of the 12 calendar months from
`t - 11` through `t` inclusive; every date has the `YYYY-MM` shape. -/
theorem getPerformanceData_dates (v f : String) (t : ℤ) :
    (getPerformanceData t v f).length = 12 ∧
    (getPerformanceData t v f).map (fun p => p.date) =
      [fmtMonth (t - 11), fmtMonth (t - 10), fmtMonth (t - 9), fmtMonth (t - 8),
       fmtMonth (t - 7), fmtMonth (t - 6), fmtMonth (t - 5), fmtMonth (t - 4),
       fmtMonth (t - 3), fmtMonth (t - 2), fmtMonth (t - 1), fmtMonth t] ∧
    ∀ p ∈ getPerformanceData t v f,
      ∃ y m, p.date = pad4 y ++ "-" ++ pad2 m ∧ 1 ≤ m ∧ m ≤ 12 := by
  have hmap : (getPerformanceData t v f).map (fun p => p.date) =
      [fmtMonth (t - 11), fmtMonth (t - 10), fmtMonth (t - 9), fmtMonth (t - 8),
       fmtMonth (t - 7), fmtMonth (t - 6), fmtMonth (t - 5), fmtMonth (t - 4),
       fmtMonth (t - 3), fmtMonth (t - 2), fmtMonth (t - 1), fmtMonth t] := rfl
  refine ⟨rfl, hmap, ?_⟩
  intro p hp
  have hd : p.date ∈ (getPerformanceData t v f).map (fun q => q.date) :=
    List.mem_map_of_mem (fun q => q.date) hp
  rw [hmap] at hd
  simp only [List.mem_cons, List.not_mem_nil, or_false] at hd
  rcases hd with h|h|h|h|h|h|h|h|h|h|h|h <;> (rw [h]; exact fmtMonth_shape _)

/-- C5: for every filter pair and every current month, each point of
`getPerformanceData` is the corresponding canonical full-portfolio point
with `totalValue` and `capitalCalled` scaled by the selected multipliers
and `tvpi` shifted by the selected offset, each rounded half-up to two
decimals; the multiplier triple is selected with fund-dominates-vehicle
precedence, an unknown id selecting the identity triple `(1, 1, 0)`. -/
theorem getPerformanceData_pointwise (t : ℤ) (v f : String) :
    ∃ m : Multipliers,
      ((f ≠ "all" ∧ fundMultipliers.lookup f = some m) ∨
       (f ≠ "all" ∧ fundMultipliers.lookup f = none ∧ m = identityMultipliers) ∨
       (f = "all" ∧ v ≠ "all" ∧ vehicleMultipliers.lookup v = some m) ∨
       (f = "all" ∧ v ≠ "all" ∧ vehicleMultipliers.lookup v = none ∧
         m = identityMultipliers) ∨
       (f = "all" ∧ v = "all" ∧ m = identityMultipliers)) ∧
      getPerformanceData t v f = (fullPerformance t).map (fun p =>
        ⟨p.date, round2 (p.totalValue * m.valueMultiplier),
         round2 (p.capitalCalled * m.calledMultiplier),
         round2 (p.tvpi + m.tvpiOffset)⟩) := by
  by_cases hf : f = "all"
  · by_cases hv : v = "all"
    · exact ⟨identityMultipliers,
        Or.inr (Or.inr (Or.inr (Or.inr ⟨hf, hv, rfl⟩))),
        by simp [getPerformanceData, hf, hv]⟩
    · cases h : vehicleMultipliers.lookup v with
      | none => exact ⟨identityMultipliers,
          Or.inr (Or.inr (Or.inr (Or.inl ⟨hf, hv, rfl, rfl⟩))),
          by simp [getPerformanceData, hf, hv, h]⟩
      | some m => exact ⟨m, Or.inr (Or.inr (Or.inl ⟨hf, hv, rfl⟩)),
          by simp [getPerformanceData, hf, hv, h]⟩
  · cases h : fundMultipliers.lookup f with
    | none => exact ⟨identityMultipliers, Or.inr (Or.inl ⟨hf, rfl, rfl⟩),
        by simp [getPerformanceData, hf, h]⟩
    | some m => exact ⟨m, Or.inl ⟨hf, rfl⟩,
        by simp [getPerformanceData, hf, h]⟩

/-- Unfolding of `handleVehicleChange` on an explicit state. -/
theorem handleVehicleChange_eq (sv sf nv : String) :
    handleVehicleChange ⟨sv, sf⟩ nv =
      if nv = sv then ⟨sv, sf⟩
      else if sf ≠ "all" then
        (match getFunds.find? (fun f => f.id == sf) with
         | some currentFund =>
             if currentFund.vehicleId ≠ nv ∧ nv ≠ "all" then ⟨nv, "all"⟩
             else ⟨nv, sf⟩
         | none => ⟨nv, sf⟩)
      else ⟨nv, sf⟩ := rfl

/-- Unfolding of `handleFundChange` on an explicit state. -/
theorem handleFundChange_eq (sv sf nf : String) :
    handleFundChange ⟨sv, sf⟩ nf =
      if nf = sf then ⟨sv, sf⟩
      else if nf ≠ "all" ∧ sv = "all" then
        (match getFunds.find? (fun f => f.id == nf) with
         | some selectedFund => ⟨selectedFund.vehicleId, nf⟩
         | none => ⟨sv, nf⟩)
      else ⟨sv, nf⟩ := rfl

/-- A single UI-valid filter-bar operation preserves the filter invariant. -/
theorem filterStep_preserves (s : FilterState) (op : FilterOp)
    (hinv : filterInvariant s) (hval : validFilterOp s op) :
    filterInvariant (applyFilterOp s op) := by
  obtain ⟨sv, sf⟩ := s
  cases op with
  | clear => exact Or.inl rfl
  | vehicleChange nv =>
      have hnv : nv = "all" ∨ nv = "iv1" ∨ nv = "iv2" := by
        simpa [validFilterOp, vehicleOptionIds, getInvestmentVehicles] using hval
      show filterInvariant (handleVehicleChange ⟨sv, sf⟩ nv)
      rw [handleVehicleChange_eq]
      by_cases h1 : nv = sv
      · rw [if_pos h1]; exact hinv
      · rw [if_neg h1]
        by_cases h2 : sf = "all"
        · rw [if_neg (by simp [h2])]
          exact Or.inl h2
        · rw [if_pos h2]
          rcases hinv with h | ⟨fu, hmem, hid, _⟩
          · exact absurd h h2
          · rw [getFunds_eq] at hmem
            simp only [FilterState.fundId] at hid
            rcases hnv with rfl | rfl | rfl <;>
              (fin_cases hmem <;> (subst hid; decide))
  | fundChange nf =>
      show filterInvariant (handleFundChange ⟨sv, sf⟩ nf)
      rw [handleFundChange_eq]
      by_cases h1 : nf = sf
      · rw [if_pos h1]; exact hinv
      · rw [if_neg h1]
        by_cases hnf : nf = "all"
        · rw [if_neg (by simp [hnf])]
          exact Or.inl hnf
        · by_cases hsv : sv = "all"
          · subst hsv
            rw [if_pos ⟨hnf, rfl⟩]
            have hmem : ∃ fu ∈ getFunds, fu.id = nf := by
              have := hval
              simp only [validFilterOp, fundOptionIds, FilterState.vehicleId] at this
              simpa [hnf, List.mem_map, eq_comm] using this
            obtain ⟨fu, hfu, hid⟩ := hmem
            rw [getFunds_eq] at hfu
            fin_cases hfu <;> (subst hid; decide)
          · rw [if_neg (fun hc => hsv hc.2)]
            have hmem : ∃ fu ∈ getFunds, fu.id = nf ∧ fu.vehicleId = sv := by
              have h2 := hval
              simp only [validFilterOp, fundOptionIds, FilterState.vehicleId,
                if_pos hsv, List.mem_cons, List.mem_map, List.mem_filter] at h2
              rcases h2 with h | ⟨fu, ⟨hfu, hv2⟩, hid2⟩
              · exact absurd h hnf
              · exact ⟨fu, hfu, hid2, by simpa using hv2⟩
            obtain ⟨fu, hfu, hid, hveh⟩ := hmem
            exact Or.inr ⟨fu, hfu, hid.symm, Or.inr hveh.symm⟩

/-- A UI-valid sequence of filter-bar operations preserves the filter
invariant from any state satisfying it. -/
theorem filterRun_preserves (ops : List FilterOp) :
    ∀ s, filterInvariant s → validFilterOps s ops →
      filterInvariant (runFilterOps s ops) := by
  induction ops with
  | nil => intro s h _; exact h
  | cons op rest ih =>
      intro s h hv
      exact ih (applyFilterOp s op) (filterStep_preserves s op h hv.1) hv.2

/-- C6: starting from the default state with both filters at `"all"`, every
sequence of filter-bar operations the dropdown UI can emit (vehicle change,
fund change, clear) keeps the invariant that a concrete fund filter always
names an existing fund whose owning vehicle is the vehicle filter, unless
the vehicle filter is `"all"`; moreover, changing the fund filter to a
concrete known fund while the vehicle filter is `"all"` auto-adopts the
owning vehicle of that fund. -/
theorem filterBar_invariant :
    (∀ ops : List FilterOp, validFilterOps initialFilterState ops →
      filterInvariant (runFilterOps initialFilterState ops)) ∧
    (∀ (s : FilterState) (nf : String) (fu : Fund),
      s.vehicleId = "all" → nf ≠ s.fundId →
      getFunds.find? (fun x => x.id == nf) = some fu →
      handleFundChange s nf = ⟨fu.vehicleId, nf⟩) := by
  constructor
  · intro ops hv
    exact filterRun_preserves ops initialFilterState (Or.inl rfl) hv
  · intro s nf fu hv hne hfind
    have hnf : nf ≠ "all" := by
      intro h
      subst h
      have hnone : getFunds.find? (fun x => x.id == "all") = none := by
        rw [getFunds_eq]; rfl
      rw [hnone] at hfind
      exact Option.noConfusion hfind
    obtain ⟨sv, sf⟩ := s
    simp only [FilterState.vehicleId] at hv
    subst hv
    rw [handleFundChange_eq, if_neg (by simpa using hne), if_pos ⟨hnf, rfl⟩, hfind]

/-- C6, witness: the UI sequence of selecting fund `pbventures` from the
default state (which auto-adopts vehicle `iv1`) and then selecting vehicle
`iv2` (which resets the fund filter) is valid and ends in a state satisfying
the invariant; the auto-adopt conjunct applied to the first step yields the
state with vehicle `iv1` and fund `pbventures`. -/
theorem filterBar_invariant_witness :
    filterInvariant (runFilterOps initialFilterState
      [FilterOp.fundChange "pbventures", FilterOp.vehicleChange "iv2"]) ∧
    handleFundChange initialFilterState "pbventures" =
      ⟨"iv1", "pbventures"⟩ :=
  ⟨filterBar_invariant.1 [FilterOp.fundChange "pbventures",
      FilterOp.vehicleChange "iv2"] (by decide),
   filterBar_invariant.2 initialFilterState "pbventures"
      ⟨"pbventures", "PB Ventures Fund", "iv1", 629/20, "#1976D2"⟩
      rfl (by decide) (by rw [getFunds_eq]; rfl)⟩

end PortalDev
